import Mathlib

/-!
Verification of the OpenHMD Rift positional-tracking core
(src/drv_oculus_rift/rift-sensor.c, rift-tracker.c).

The development shallowly embeds the data model and the operations of the
two source files.  Machine integers are modelled as Nat with explicit
mod-2^w reductions exactly where the C arithmetic wraps or truncates.
Floating-point quantities that are only copied or compared are modelled
over the rationals.  External collaborators that live outside the two
source files (the Kalman filter, the pose-metric evaluation, the
exponential output filter, the EEPROM/IEEE-754 decoding) are abstracted
as function parameters, or are modelled from the specification where the
specification describes them; such definitions carry a doc comment
saying so.
-/

namespace OpenHMDRift

/-! ## Calibration decoding (rift_sensor_get_calibration, DK2 branch)

The camera matrix and distortion coefficients are doubles in C; only
copies of decoded values are performed, so they are modelled over the
rationals.
-/

structure rift_sensor_calibration where
  camera_matrix : List ℚ
  dist_coeffs : List ℚ
  dist_fisheye : Bool
deriving DecidableEq

/-- Translation of the DK2_PID branch of rift_sensor_get_calibration
(rift-sensor.c lines 440-472).  The argument dbl gives, for a byte
offset into the 128-byte EEPROM block read at address 0x2000, the
little-endian double decoded at that offset (the IEEE-754 byte decoding
is the environment of the embedding).  The argument k0 holds the prior
contents of ctx.dist_coeffs (zero at allocation time).  The distortion
array assignments mirror the source statements in order:
k[0] = k1; k[1] = k2; k[1] = p1; k[2] = p2; k[4] = k3;
note that the source writes index 1 twice and never writes index 3. -/
def rift_sensor_get_calibration_dk2 (dbl : ℕ → ℚ) (k0 : List ℚ) :
    rift_sensor_calibration :=
  let fx := dbl 18
  let fy := dbl 30
  let cx := dbl 42
  let cy := dbl 54
  let k1 := dbl 66
  let k2 := dbl 78
  let p1 := dbl 90
  let p2 := dbl 102
  let k3 := dbl 114
  let k := ((((k0.set 0 k1).set 1 k2).set 1 p1).set 2 p2).set 4 k3
  { camera_matrix := [fx, 0, cx, 0, fy, cy, 0, 0, 1]
    dist_coeffs := k
    dist_fisheye := false }

/-- Concrete decoded-double environment used to evaluate the DK2
calibration decoding at a distinguishing input: the double decoded at
offset o is the rational o, so k1 = 66, k2 = 78, p1 = 90, p2 = 102,
k3 = 114 are pairwise distinct. -/
def c1dbl : ℕ → ℚ := fun o => (o : ℚ)

/-! ## Bounded frame queue (rift-sensor.c lines 43-91)

QUEUE_SIZE is NUM_CAPTURE_BUFFERS + 1 = 5.  The C head and tail indices
are unsigned ints that the code keeps in [0, 5) (every assignment is
either 0, a value reduced mod 5, or the clamped predecessor), so they
are modelled as Fin 5.  Queue entries are frame pointers, modelled as
natural numbers. -/

structure rift_sensor_frame_queue where
  data : Fin 5 → ℕ
  head : Fin 5
  tail : Fin 5

/-- Successor index mod QUEUE_SIZE, as computed by (x+1) % QUEUE_SIZE. -/
def qnext (i : Fin 5) : Fin 5 := ⟨(i.val + 1) % 5, Nat.mod_lt _ (by omega)⟩

/-- Predecessor index: the C code computes tail - 1 on an unsigned int
(wrapping to 2^32 - 1 when tail = 0) and then clamps any value at least
QUEUE_SIZE to QUEUE_SIZE - 1 = 4.  On the maintained range [0, 5) this
equals (tail + 4) % 5. -/
def qprev (i : Fin 5) : Fin 5 := ⟨(i.val + 4) % 5, Nat.mod_lt _ (by omega)⟩

/-- PUSH_QUEUE.  Returns none exactly when the C assertion
"next != head" (the overflow check) fails; the non-null assertion on the
frame pointer is not modelled (entries are plain naturals). -/
def PUSH_QUEUE (q : rift_sensor_frame_queue) (f : ℕ) :
    Option rift_sensor_frame_queue :=
  let next := qnext q.tail
  if next = q.head then none
  else some { q with data := Function.update q.data q.tail f, tail := next }

/-- POP_QUEUE: returns none when the queue is empty. -/
def POP_QUEUE (q : rift_sensor_frame_queue) :
    Option (ℕ × rift_sensor_frame_queue) :=
  if q.tail = q.head then none
  else some (q.data q.head, { q with head := qnext q.head })

/-- REWIND_QUEUE: un-pushes the most recent entry, returning none when
the queue is empty. -/
def REWIND_QUEUE (q : rift_sensor_frame_queue) :
    Option (ℕ × rift_sensor_frame_queue) :=
  let prev := qprev q.tail
  if q.tail = q.head then none
  else some (q.data prev, { q with tail := prev })

/-- Number of entries currently in the queue. -/
def queueCount (q : rift_sensor_frame_queue) : ℕ :=
  (q.tail.val + 5 - q.head.val) % 5

/-- The k-th live entry counted from the head. -/
def queueEntry (q : rift_sensor_frame_queue) (k : ℕ) : ℕ :=
  q.data ⟨(q.head.val + k) % 5, Nat.mod_lt _ (by omega)⟩

/-- The observable content of the queue: the list of live entries from
head to tail. -/
def queueList (q : rift_sensor_frame_queue) : List ℕ :=
  (List.range (queueCount q)).map (queueEntry q)

/-! ## Pose mathematics

Quaternions, vectors and rigid poses over the rationals.  The pose
helpers live in rift-sensor-maths.c, which is outside the two embedded
source files; they are modelled from the specification (rigid pose
composition and inversion, with the quaternion inverse taken as the
conjugate, which is the inverse for the unit quaternions the code
works with). -/

structure vec3f where
  x : ℚ
  y : ℚ
  z : ℚ
deriving DecidableEq

structure quatf where
  x : ℚ
  y : ℚ
  z : ℚ
  w : ℚ
deriving DecidableEq

structure posef where
  orient : quatf
  pos : vec3f
deriving DecidableEq

def vec3f_zero : vec3f := ⟨0, 0, 0⟩

def vec3f_add (a b : vec3f) : vec3f := ⟨a.x + b.x, a.y + b.y, a.z + b.z⟩

def vec3f_neg (a : vec3f) : vec3f := ⟨-a.x, -a.y, -a.z⟩

/-- Hamilton product of two quaternions. -/
def oquatf_mult (a b : quatf) : quatf :=
  { x := a.w * b.x + a.x * b.w + a.y * b.z - a.z * b.y
    y := a.w * b.y - a.x * b.z + a.y * b.w + a.z * b.x
    z := a.w * b.z + a.x * b.y - a.y * b.x + a.z * b.w
    w := a.w * b.w - a.x * b.x - a.y * b.y - a.z * b.z }

/-- Modelled from the spec: quaternion inverse used by the pose
helpers; the conjugate (the inverse of a unit quaternion). -/
def oquatf_inverse (q : quatf) : quatf := ⟨-q.x, -q.y, -q.z, q.w⟩

/-- Squared norm of a quaternion.  The source compares
oquatf_get_length(q) > 0.9; since the length is non-negative this is
equivalent to comparing the squared length with 0.81, which stays in
the rationals. -/
def oquatf_get_length_sq (q : quatf) : ℚ :=
  q.x * q.x + q.y * q.y + q.z * q.z + q.w * q.w

/-- Rotation of a vector by a quaternion: q * v * q⁻¹. -/
def oquatf_get_rotated (q : quatf) (v : vec3f) : vec3f :=
  let p := oquatf_mult (oquatf_mult q ⟨v.x, v.y, v.z, 0⟩) (oquatf_inverse q)
  ⟨p.x, p.y, p.z⟩

/-- Modelled from the spec: oposef_apply a b applies the transform b
after the transform a (the composition b after a), mirroring the
source convention oposef_apply(&in, &xform, &out). -/
def oposef_apply (a b : posef) : posef :=
  { orient := oquatf_mult b.orient a.orient
    pos := vec3f_add (oquatf_get_rotated b.orient a.pos) b.pos }

/-- Modelled from the spec: inverse of a rigid pose. -/
def oposef_inverse (a : posef) : posef :=
  let qi := oquatf_inverse a.orient
  { orient := qi, pos := vec3f_neg (oquatf_get_rotated qi a.pos) }

/-! ## Tracker data model (rift-tracker.c)

NUM_POSE_DELAY_SLOTS = 3.  The delay-slot ring is a total function on
Fin 3.  The slot id and the use count are C ints, modelled as integers;
device times are uint64 nanoseconds and raw IMU timestamps are uint32
microseconds, modelled as naturals with explicit wrap arithmetic. -/

structure rift_tracker_pose_delay_slot where
  slot_id : ℤ
  valid : Bool
  use_count : ℤ
  device_time_ns : ℕ
deriving DecidableEq

/-- Per-device exposure record (rift_tracked_device_exposure_info).
The capture pose and the positional/rotational uncertainty fields that
the tracker also stores in this record are produced by the external
Kalman-filter query and are never read by the slot bookkeeping, so they
are not part of this embedding. -/
structure rift_tracked_device_exposure_info where
  fusion_slot : ℤ
  device_time_ns : ℕ
deriving DecidableEq

/-- The fields of rift_tracked_device_priv that the embedded operations
touch.  The Kalman filter instance, the pending IMU observation buffer
and the debug sinks are external collaborators; the fusion_to_model
offset and the model pose are only used by operations not embedded
here. -/
structure RiftDevice where
  delay_slot_index : ℕ
  delay_slots : Fin 3 → rift_tracker_pose_delay_slot
  last_device_ts : ℕ
  device_time_ns : ℕ
  last_observed_pose_ts : ℕ
  last_reported_pose : ℕ
  reported_pose : posef
  pose_output_filter : Option posef

/-- Well-formedness maintained by rift_tracker_add_device: the slot id
stored in each ring entry equals its index. -/
def slotsWF (dev : RiftDevice) : Prop :=
  ∀ j : Fin 3, (dev.delay_slots j).slot_id = (j.val : ℤ)

instance (dev : RiftDevice) : Decidable (slotsWF dev) := by
  unfold slotsWF; infer_instance

/-- get_matching_delay_slot (rift-tracker.c lines 757-772).  Returns
the index of the slot referenced by the exposure record when that
reference is not -1, the slot is valid, and the slot device time
matches the record.  The toNat < 3 guard models the C assertion
slot_no < NUM_POSE_DELAY_SLOTS (every stored reference is -1 or an
index in [0, 3)). -/
def get_matching_delay_slot (dev : RiftDevice)
    (dev_info : rift_tracked_device_exposure_info) : Option (Fin 3) :=
  if h : dev_info.fusion_slot ≠ -1 ∧ dev_info.fusion_slot.toNat < 3 then
    let i : Fin 3 := ⟨dev_info.fusion_slot.toNat, h.2⟩
    let slot := dev.delay_slots i
    if slot.valid = true ∧ slot.device_time_ns = dev_info.device_time_ns then
      some i
    else none
  else none

/-- rift_tracked_device_exposure_claim (rift-tracker.c lines 798-825).
Returns the updated device and the updated exposure record. -/
def rift_tracked_device_exposure_claim (dev : RiftDevice)
    (dev_info : rift_tracked_device_exposure_info) :
    RiftDevice × rift_tracked_device_exposure_info :=
  match get_matching_delay_slot dev dev_info with
  | some i =>
      let slot := dev.delay_slots i
      ({ dev with delay_slots :=
           (Function.update dev.delay_slots i
             { slot with use_count := slot.use_count + 1 }) },
       { dev_info with fusion_slot := slot.slot_id })
  | none =>
      (dev,
       if dev_info.fusion_slot = -1 then dev_info
       else { dev_info with fusion_slot := -1 })

/-- rift_tracked_device_exposure_release_locked (rift-tracker.c lines
827-852).  The Bool result records whether the code told the Kalman
filter to discard the delay-slot snapshot
(rift_kalman_6dof_release_delay_slot, an external call made when the
use count reaches 0). -/
def rift_tracked_device_exposure_release_locked (dev : RiftDevice)
    (dev_info : rift_tracked_device_exposure_info) :
    RiftDevice × rift_tracked_device_exposure_info × Bool :=
  match get_matching_delay_slot dev dev_info with
  | some i =>
      let slot := dev.delay_slots i
      let slot1 := if 0 < slot.use_count
        then { slot with use_count := slot.use_count - 1 } else slot
      let discard : Bool := decide (slot1.use_count = 0)
      let slot2 := if discard then { slot1 with valid := false } else slot1
      ({ dev with delay_slots := Function.update dev.delay_slots i slot2 },
       { dev_info with fusion_slot := -1 },
       discard)
  | none => (dev, dev_info, false)

/-- Loop body of find_free_delay_slot: n remaining iterations, current
ring index idx.  The device ring index is advanced on every iteration
before the free test, exactly as in the source.  The idx < 3 guard is
the array access; the code maintains idx in [0, 3). -/
def find_free_aux (slots : Fin 3 → rift_tracker_pose_delay_slot) :
    ℕ → ℕ → ℕ × Option (Fin 3 × rift_tracker_pose_delay_slot)
  | idx, 0 => (idx, none)
  | idx, n + 1 =>
      let idx1 := (idx + 1) % 3
      if h : idx < 3 then
        let slot := slots ⟨idx, h⟩
        if slot.use_count = 0 then (idx1, some (⟨idx, h⟩, slot))
        else find_free_aux slots idx1 n
      else find_free_aux slots idx1 n

/-- find_free_delay_slot (rift-tracker.c lines 738-755): round-robin
scan over the NUM_POSE_DELAY_SLOTS = 3 slots for one with use count 0,
advancing the ring index each probe. -/
def find_free_delay_slot (dev : RiftDevice) :
    RiftDevice × Option (Fin 3 × rift_tracker_pose_delay_slot) :=
  let r := find_free_aux dev.delay_slots dev.delay_slot_index 3
  ({ dev with delay_slot_index := r.1 }, r.2)

/-- rift_tracked_device_update_exposure (rift-tracker.c lines 774-796):
allocate a delay slot for a new exposure.  The capture pose and
covariance snapshot (rift_tracked_device_get_model_pose_locked) and the
filter call rift_kalman_6dof_prepare_delay_slot are external and do not
touch the slot ring beyond what is modelled. -/
def rift_tracked_device_update_exposure (dev : RiftDevice) :
    RiftDevice × rift_tracked_device_exposure_info :=
  let r := find_free_delay_slot dev
  match r.2 with
  | some is =>
      ({ r.1 with delay_slots :=
           (Function.update r.1.delay_slots is.1
             { is.2 with device_time_ns := dev.device_time_ns, valid := true }) },
       { fusion_slot := is.2.slot_id, device_time_ns := dev.device_time_ns })
  | none =>
      (r.1, { fusion_slot := -1, device_time_ns := dev.device_time_ns })

/-! ## IMU time extension (rift_tracked_device_imu_update,
rift-tracker.c lines 513-547)

Only the timestamp-extension part of the function touches
last_device_ts and device_time_ns; the Kalman update and the pending
observation buffer are external.  device_ts is a uint32 microsecond
timestamp.  The C statements
  device_time_ns = device_ts * 1000            (when device_time_ns == 0)
  dt_ns = ((uint32_t)(device_ts - last_device_ts)) * 1000
perform the multiplication by 1000 in 32-bit unsigned arithmetic (the
operands are unsigned int and int), so both products are reduced
mod 2^32 before being widened to uint64. -/

def rift_tracked_device_imu_update (dev : RiftDevice) (device_ts : ℕ) :
    RiftDevice :=
  let t := device_ts % 2 ^ 32
  if dev.device_time_ns = 0 then
    { dev with device_time_ns := t * 1000 % 2 ^ 32, last_device_ts := t }
  else
    let dt_ns := (t + 2 ^ 32 - dev.last_device_ts % 2 ^ 32) % 2 ^ 32 * 1000 % 2 ^ 32
    { dev with device_time_ns := (dev.device_time_ns + dt_ns) % 2 ^ 64
               last_device_ts := t }

/-- The claimed update step, stated from the claim wording: when not
initialising, the update adds the non-negative 32-bit wrap-around
difference between the new and previous raw timestamp converted
(exactly) to nanoseconds.  This definition exists only to exhibit where
it diverges from rift_tracked_device_imu_update. -/
def imu_update_per_claim (dev : RiftDevice) (device_ts : ℕ) : RiftDevice :=
  let t := device_ts % 2 ^ 32
  if dev.device_time_ns = 0 then
    { dev with device_time_ns := t * 1000 % 2 ^ 32, last_device_ts := t }
  else
    let dt_ns := (t + 2 ^ 32 - dev.last_device_ts % 2 ^ 32) % 2 ^ 32 * 1000
    { dev with device_time_ns := dev.device_time_ns + dt_ns
               last_device_ts := t }

/-- The sequence of device_time_ns values observed along a run of IMU
updates with the given raw timestamps, starting from dev. -/
def rift_device_time_trace : RiftDevice → List ℕ → List ℕ
  | dev, [] => [dev.device_time_ns]
  | dev, t :: ts =>
      dev.device_time_ns ::
        rift_device_time_trace (rift_tracked_device_imu_update dev t) ts

/-! ## View pose output (rift_tracked_device_get_view_pose,
rift-tracker.c lines 549-578)

The Kalman query rift_kalman_6dof_get_pose_at is external and is passed
in as the function kal from device time to (pose, velocity,
acceleration).  The output smoothing filter lives in
src/exponential-filter.c, which is not among the embedded source
files; it is modelled from the spec below. -/

/-- Linear blend a + alpha * (b - a). -/
def exp_lerp (a b alpha : ℚ) : ℚ := a + alpha * (b - a)

def exp_lerp_vec (a b : vec3f) (alpha : ℚ) : vec3f :=
  ⟨exp_lerp a.x b.x alpha, exp_lerp a.y b.y alpha, exp_lerp a.z b.z alpha⟩

def exp_lerp_quat (a b : quatf) (alpha : ℚ) : quatf :=
  ⟨exp_lerp a.x b.x alpha, exp_lerp a.y b.y alpha,
   exp_lerp a.z b.z alpha, exp_lerp a.w b.w alpha⟩

/-- Modelled from the spec: the per-device output exponential-smoothing
filter (exp_filter_pose_run, src/exponential-filter.c, not among the
embedded files).  A first-order exponential smoother keyed on device
time: the state is the previous output (none for a fresh filter, which
passes its first input through), and the output blends the previous
output toward the input with coefficient alpha, which abstracts the
weight the implementation derives from the device-time step ts. -/
def exp_filter_pose_run (alpha : ℚ) (state : Option posef) (_ts : ℕ)
    (inp : posef) : Option posef × posef :=
  match state with
  | none => (some inp, inp)
  | some s =>
      let out : posef :=
        ⟨exp_lerp_quat s.orient inp.orient alpha,
         exp_lerp_vec s.pos inp.pos alpha⟩
      (some out, out)

/-- rift_tracked_device_get_view_pose (rift-tracker.c lines 549-578).
POSE_LOST_THRESHOLD * 1000000 = 500000000 ns.  The subtraction
device_time_ns - last_observed_pose_ts is uint64 arithmetic, modelled
as (a + 2^64 - b) % 2^64.  Returns the updated device, the reported
pose, and the velocity and acceleration outputs (which start as zero
locals in the source). -/
def rift_tracked_device_get_view_pose (kal : ℕ → posef × vec3f × vec3f)
    (alpha : ℚ) (dev : RiftDevice) : RiftDevice × posef × vec3f × vec3f :=
  if dev.last_reported_pose < dev.device_time_ns then
    let q := kal dev.device_time_ns
    let imu_pose := q.1
    let rep := { dev.reported_pose with orient := imu_pose.orient }
    let lost : Prop :=
      500000000 ≤ (dev.device_time_ns + 2 ^ 64 - dev.last_observed_pose_ts) % 2 ^ 64
    let imu_pose2 := if lost then { imu_pose with pos := rep.pos } else imu_pose
    let imu_vel2 := if lost then vec3f_zero else q.2.1
    let imu_accel2 := if lost then vec3f_zero else q.2.2
    let fr := exp_filter_pose_run alpha dev.pose_output_filter
                dev.device_time_ns imu_pose2
    ({ dev with reported_pose := fr.2, pose_output_filter := fr.1,
                last_reported_pose := dev.device_time_ns },
     fr.2, imu_vel2, imu_accel2)
  else
    (dev, dev.reported_pose, vec3f_zero, vec3f_zero)

/-! ## Camera pose bootstrap (update_device_pose, rift-sensor.c lines
643-746) -/

/-- The sensor fields update_device_pose touches. -/
structure rift_sensor_pose_state where
  have_camera_pose : Bool
  camera_pose : posef
deriving DecidableEq

/-- update_device_pose (rift-sensor.c lines 643-746).  The function
first re-evaluates the candidate pose with rift_evaluate_pose (external
pose-metric code); the resulting score.good_pose_match is the argument
good_pose_match.  The threshold DEG_TO_RAD(15.0) is the parameter
rad15 (an irrational constant in exact arithmetic), and the comparison
oquatf_get_length(orient) > 0.9 is taken on squared lengths.  In the
have_camera_pose branch the source submits the composed pose to the
external fusion filter and releases the frame exposure; only the flag
found_device_pose (the Bool result) and the sensor state matter here.
Returns (new sensor state, found_device_pose). -/
def update_device_pose (rad15 : ℚ) (sensor : rift_sensor_pose_state)
    (dev_id : ℕ) (good_pose_match : Bool) (capture_world_pose : posef)
    (gravity_error_rad : ℚ) (final_cam_pose : posef) :
    rift_sensor_pose_state × Bool :=
  if good_pose_match = true then
    if sensor.have_camera_pose = true then
      (sensor, true)
    else if dev_id = 0 ∧ 81 / 100 < oquatf_get_length_sq capture_world_pose.orient
              ∧ gravity_error_rad < rad15 then
      let camera_object_pose := oposef_inverse final_cam_pose
      ({ have_camera_pose := true
         camera_pose := oposef_apply camera_object_pose capture_world_pose },
       false)
    else (sensor, false)
  else (sensor, false)

/-! ## Exposure patch (rift_sensor_update_exposure, rift-sensor.c lines
1146-1196, and rift_tracker_frame_changed_exposure, rift-tracker.c
lines 389-412) -/

/-- The tracker-level exposure info record.  n_devices is the length of
the devices list. -/
structure rift_tracker_exposure_info where
  local_ts : ℕ
  hmd_ts : ℕ
  count : ℕ
  led_pattern_phase : ℕ
  devices : List rift_tracked_device_exposure_info
deriving DecidableEq

/-- The capture-frame fields rift_sensor_update_exposure touches:
uvc.start_ts, the exposure validity flag and the attached exposure
info. -/
structure rift_sensor_capture_frame where
  start_ts : ℕ
  exposure_info_valid : Bool
  exposure_info : rift_tracker_exposure_info
deriving DecidableEq

/-- rift_tracker_frame_changed_exposure (rift-tracker.c lines 389-412):
for each tracked device in order, release the device record of the old
exposure (when present) and claim the device record of the new
exposure (when present).  The claim writes back into the new exposure
records (the sensor frame keeps them), so they are returned updated;
the old records are a discarded stack copy in the caller. -/
def rift_tracker_frame_changed_exposure :
    List RiftDevice → Option (List rift_tracked_device_exposure_info) →
    List rift_tracked_device_exposure_info →
    List RiftDevice × List rift_tracked_device_exposure_info
  | [], _, newRecs => ([], newRecs)
  | dev :: devs, oldRecs?, newRecs =>
      let step1 : RiftDevice × Option (List rift_tracked_device_exposure_info) :=
        match oldRecs? with
        | some (o :: os) =>
            ((rift_tracked_device_exposure_release_locked dev o).1, some os)
        | some [] => (dev, some [])
        | none => (dev, none)
      match newRecs with
      | [] =>
          let rest := rift_tracker_frame_changed_exposure devs step1.2 []
          (step1.1 :: rest.1, [])
      | n :: ns =>
          let c := rift_tracked_device_exposure_claim step1.1 n
          let rest := rift_tracker_frame_changed_exposure devs step1.2 ns
          (c.1 :: rest.1, c.2 :: rest.2)

/-- Releasing the old per-device exposure records against the device
list, device by device (devices beyond the record list, and records
beyond the device list, are untouched). -/
def releaseOldRecords :
    List RiftDevice → List rift_tracked_device_exposure_info → List RiftDevice
  | [], _ => []
  | dev :: devs, [] => dev :: devs
  | dev :: devs, o :: os =>
      (rift_tracked_device_exposure_release_locked dev o).1 ::
        releaseOldRecords devs os

/-- Claiming the new per-device exposure records against the device
list, device by device, returning the updated devices and the updated
records. -/
def claimNewRecords :
    List RiftDevice → List rift_tracked_device_exposure_info →
    List RiftDevice × List rift_tracked_device_exposure_info
  | [], recs => ([], recs)
  | dev :: devs, [] => (dev :: devs, [])
  | dev :: devs, n :: ns =>
      let c := rift_tracked_device_exposure_claim dev n
      let rest := claimNewRecords devs ns
      (c.1 :: rest.1, c.2 :: rest.2)

/-- The state rift_sensor_update_exposure works on: the frame currently
being captured into (if any) and the tracker's device list, which the
accounting callback rift_tracker_frame_changed_exposure updates. -/
structure rift_sensor_exposure_state where
  cur_capture_frame : Option rift_sensor_capture_frame
  devices : List RiftDevice

/-- rift_sensor_update_exposure (rift-sensor.c lines 1146-1196).  When
the current frame has no exposure info yet, the new info is taken.
When it has one with a different counter, the new info replaces it only
if it arrived within 5 ms (5000000 ns) of the frame start, and the
tracker releases the old per-device slots and claims the new ones. -/
def rift_sensor_update_exposure (st : rift_sensor_exposure_state)
    (new_info : rift_tracker_exposure_info) : rift_sensor_exposure_state :=
  match st.cur_capture_frame with
  | none => st
  | some frame =>
      if frame.exposure_info_valid = false then
        let r := rift_tracker_frame_changed_exposure st.devices none
                   new_info.devices
        { cur_capture_frame := some { frame with
            exposure_info := { new_info with devices := r.2 }
            exposure_info_valid := true }
          devices := r.1 }
      else if frame.exposure_info.count ≠ new_info.count then
        if new_info.local_ts < frame.start_ts + 5000000 then
          let r := rift_tracker_frame_changed_exposure st.devices
                     (some frame.exposure_info.devices) new_info.devices
          { cur_capture_frame := some { frame with
              exposure_info := { new_info with devices := r.2 } }
            devices := r.1 }
        else st
      else st

/-! ## Concrete sample states

Small concrete devices, frames and queues used to evaluate the
embedded operations on explicit inputs. -/

def posef_id : posef := ⟨⟨0, 0, 0, 1⟩, ⟨0, 0, 0⟩⟩

/-- A slot ring from three explicit slots. -/
def mkSlots (a b c : rift_tracker_pose_delay_slot) :
    Fin 3 → rift_tracker_pose_delay_slot :=
  fun j => if j.val = 0 then a else if j.val = 1 then b else c

/-- An unused, invalid slot carrying its ring index, as set up by
rift_tracker_add_device. -/
def freeSlot (i : ℕ) : rift_tracker_pose_delay_slot :=
  { slot_id := (i : ℤ), valid := false, use_count := 0, device_time_ns := 0 }

/-- A freshly registered device with the given slot ring. -/
def baseDevice (slots : Fin 3 → rift_tracker_pose_delay_slot) : RiftDevice :=
  { delay_slot_index := 0, delay_slots := slots, last_device_ts := 0,
    device_time_ns := 0, last_observed_pose_ts := 0, last_reported_pose := 0,
    reported_pose := posef_id, pose_output_filter := none }

def c2dev : RiftDevice :=
  baseDevice (mkSlots (freeSlot 0)
    { slot_id := 1, valid := true, use_count := 5, device_time_ns := 42 }
    (freeSlot 2))

def c2info : rift_tracked_device_exposure_info := ⟨1, 42⟩

def c3dev : RiftDevice :=
  { baseDevice (mkSlots (freeSlot 0) (freeSlot 1) (freeSlot 2)) with
      device_time_ns := 7777 }

def c4dev : RiftDevice :=
  { baseDevice (mkSlots (freeSlot 0) (freeSlot 1) (freeSlot 2)) with
      device_time_ns := 1000 }

def c4runDev : RiftDevice :=
  baseDevice (mkSlots (freeSlot 0) (freeSlot 1) (freeSlot 2))

def c4ts : List ℕ := [1000, 501000, 501000, 6000000000]

def c5dev : RiftDevice :=
  { baseDevice (mkSlots (freeSlot 0) (freeSlot 1) (freeSlot 2)) with
      device_time_ns := 600000000,
      reported_pose := ⟨⟨0, 0, 0, 1⟩, ⟨7, 8, 9⟩⟩ }

def c5kal : ℕ → posef × vec3f × vec3f :=
  fun _ => (⟨⟨1 / 2, 0, 0, 1⟩, ⟨100, 200, 300⟩⟩, ⟨4, 5, 6⟩, ⟨7, 8, 9⟩)

def c6sensor : rift_sensor_pose_state := ⟨false, posef_id⟩

def c6capture : posef := ⟨⟨0, 0, 0, 1⟩, ⟨1, 0, 0⟩⟩

def c6found : posef := ⟨⟨0, 0, 1, 0⟩, ⟨0, 0, 2⟩⟩

def c7q : rift_sensor_frame_queue := ⟨fun j => 10 * j.val, 0, 2⟩

def c8dev : RiftDevice :=
  baseDevice (mkSlots
    { slot_id := 0, valid := true, use_count := 1, device_time_ns := 5 }
    { slot_id := 1, valid := true, use_count := 0, device_time_ns := 9 }
    (freeSlot 2))

def c8oldrec : rift_tracked_device_exposure_info := ⟨0, 5⟩

def c8newrec : rift_tracked_device_exposure_info := ⟨1, 9⟩

def c8frame : rift_sensor_capture_frame :=
  { start_ts := 1000000, exposure_info_valid := true,
    exposure_info := { local_ts := 0, hmd_ts := 0, count := 7,
                       led_pattern_phase := 0, devices := [c8oldrec] } }

def c8new : rift_tracker_exposure_info :=
  { local_ts := 3000000, hmd_ts := 0, count := 8,
    led_pattern_phase := 1, devices := [c8newrec] }

def c8st : rift_sensor_exposure_state := ⟨some c8frame, [c8dev]⟩

def c9dev : RiftDevice :=
  baseDevice (mkSlots (freeSlot 0) (freeSlot 1)
    { slot_id := 2, valid := true, use_count := 1, device_time_ns := 3 })

def c9info : rift_tracked_device_exposure_info := ⟨2, 3⟩

def c10dev : RiftDevice :=
  { baseDevice (mkSlots (freeSlot 0) (freeSlot 1) (freeSlot 2)) with
      device_time_ns := 5, last_reported_pose := 5,
      reported_pose := ⟨⟨0, 0, 0, 1⟩, ⟨1, 1, 1⟩⟩ }

def c10kal : ℕ → posef × vec3f × vec3f :=
  fun _ => (posef_id, ⟨9, 9, 9⟩, ⟨9, 9, 9⟩)

/-! ## Theorems -/

/-- C1: on a DK2 calibration read the claim expects
dist_coeffs = [k1, k2, p1, p2, k3], but the source assignment sequence
k[0]=k1; k[1]=k2; k[1]=p1; k[2]=p2; k[4]=k3 overwrites index 1 with p1
and never writes index 3, contradicting the comment directly above it
(k = [k1 k2, p1, p2, k3] for DK2 distortion).  Evaluating the decoder
at the block whose decoded doubles are k1 = 66, k2 = 78, p1 = 90,
p2 = 102, k3 = 114 (with prior coefficients zero) yields
[k1, p1, p2, 0, k3], not [k1, k2, p1, p2, k3]; the fisheye flag is
false as claimed. -/
theorem dk2_calibration_clobbers_k2 :
    (rift_sensor_get_calibration_dk2 c1dbl [0, 0, 0, 0, 0]).dist_coeffs
        = [66, 90, 102, 0, 114] ∧
    (rift_sensor_get_calibration_dk2 c1dbl [0, 0, 0, 0, 0]).dist_coeffs
        ≠ [66, 78, 90, 102, 114] ∧
    (rift_sensor_get_calibration_dk2 c1dbl [0, 0, 0, 0, 0]).dist_fisheye
        = false := by
  refine ⟨rfl, ?_, rfl⟩
  intro h
  rw [show (rift_sensor_get_calibration_dk2 c1dbl [0, 0, 0, 0, 0]).dist_coeffs
        = [66, 90, 102, 0, 114] from rfl] at h
  have h2 := congrArg (fun l : List ℚ => l.get? 1) h
  simp at h2

theorem qprev_qnext (i : Fin 5) : qprev (qnext i) = i := by
  have := i.isLt
  simp only [qprev, qnext, Fin.ext_iff]
  omega

/-- C7: the bounded frame queue.  Pushing onto a queue holding fewer
than 4 entries succeeds and an immediate rewind returns the pushed
frame with head, tail and the live contents restored; pop and rewind
on an empty queue return nothing; push onto a queue holding 4 entries
fails the overflow assertion (PUSH_QUEUE returns none). -/
theorem frame_queue_ops_spec (q : rift_sensor_frame_queue) (f : ℕ) :
    (queueCount q < 4 →
      ∃ q1 q2, PUSH_QUEUE q f = some q1 ∧ REWIND_QUEUE q1 = some (f, q2) ∧
        q2.head = q.head ∧ q2.tail = q.tail ∧ queueList q2 = queueList q) ∧
    (q.tail = q.head → POP_QUEUE q = none ∧ REWIND_QUEUE q = none) ∧
    (queueCount q = 4 → PUSH_QUEUE q f = none) := by
  have ht := q.tail.isLt
  have hh := q.head.isLt
  refine ⟨?_, ?_, ?_⟩
  · intro hc
    unfold queueCount at hc
    have hne : qnext q.tail ≠ q.head := by
      simp only [Ne, qnext, Fin.ext_iff]
      omega
    refine ⟨{ q with data := Function.update q.data q.tail f, tail := qnext q.tail },
            { q with data := Function.update q.data q.tail f },
            ?_, ?_, rfl, rfl, ?_⟩
    · unfold PUSH_QUEUE
      rw [if_neg hne]
    · unfold REWIND_QUEUE
      rw [if_neg hne, qprev_qnext]
      simp [Function.update_same]
    · unfold queueList
      have hcount : queueCount { q with data := Function.update q.data q.tail f }
          = queueCount q := rfl
      rw [hcount]
      refine List.map_congr_left ?_
      intro k hk
      rw [List.mem_range] at hk
      unfold queueCount at hk
      unfold queueEntry
      refine Function.update_noteq ?_ _ _
      simp only [Ne, Fin.ext_iff]
      omega
  · intro he
    constructor
    · unfold POP_QUEUE
      rw [if_pos he]
    · unfold REWIND_QUEUE
      rw [if_pos he]
  · intro hc
    unfold queueCount at hc
    have heq : qnext q.tail = q.head := by
      simp only [qnext, Fin.ext_iff]
      omega
    unfold PUSH_QUEUE
    rw [if_pos heq]

/-- C7 witness: a queue with 2 entries, pushed with 99.  The theorem is
applied at this queue, with the entry-count hypothesis discharged by
computation. -/
theorem frame_queue_ops_spec_witness :
    queueCount c7q < 4 ∧
    (∃ q1 q2, PUSH_QUEUE c7q 99 = some q1 ∧ REWIND_QUEUE q1 = some (99, q2) ∧
      q2.head = c7q.head ∧ q2.tail = c7q.tail ∧ queueList q2 = queueList c7q) :=
  ⟨by decide, (frame_queue_ops_spec c7q 99).1 (by decide)⟩

theorem imu_step_le (dev : RiftDevice) (t : ℕ) :
    (rift_tracked_device_imu_update dev t).device_time_ns
      ≤ dev.device_time_ns + 2 ^ 32 := by
  unfold rift_tracked_device_imu_update
  split
  · have h1 : t % 2 ^ 32 * 1000 % 2 ^ 32 < 2 ^ 32 := Nat.mod_lt _ (by norm_num)
    simp only []
    omega
  · have h1 : (t % 2 ^ 32 + 2 ^ 32 - dev.last_device_ts % 2 ^ 32) % 2 ^ 32 * 1000
        % 2 ^ 32 < 2 ^ 32 := Nat.mod_lt _ (by norm_num)
    have h2 := Nat.mod_le (dev.device_time_ns +
      (t % 2 ^ 32 + 2 ^ 32 - dev.last_device_ts % 2 ^ 32) % 2 ^ 32 * 1000 % 2 ^ 32)
      (2 ^ 64)
    simp only []
    omega

theorem imu_step_mono (dev : RiftDevice) (t : ℕ)
    (h : dev.device_time_ns + 2 ^ 32 ≤ 2 ^ 64) :
    dev.device_time_ns ≤ (rift_tracked_device_imu_update dev t).device_time_ns := by
  unfold rift_tracked_device_imu_update
  split
  · rename_i h0
    simp only [h0]
    exact Nat.zero_le _
  · have h1 : (t % 2 ^ 32 + 2 ^ 32 - dev.last_device_ts % 2 ^ 32) % 2 ^ 32 * 1000
        % 2 ^ 32 < 2 ^ 32 := Nat.mod_lt _ (by norm_num)
    simp only []
    rw [Nat.mod_eq_of_lt (by omega)]
    omega

theorem rift_device_time_trace_head (dev : RiftDevice) (ts : List ℕ) :
    ∃ tl, rift_device_time_trace dev ts = dev.device_time_ns :: tl := by
  cases ts <;> exact ⟨_, rfl⟩

/-- C4 (amended): across any run of IMU updates short enough that the
64-bit counter cannot wrap (at most 2^32 updates from boot, here
expressed by the bound hypothesis, since every step adds less than
2^32 nanoseconds after the 32-bit truncation), the extended
device_time_ns is monotonically non-decreasing: each update either
initialises it (when it is 0) or adds the non-negative value
(wrap-difference times 1000) reduced mod 2^32. -/
theorem imu_device_time_monotone (dev : RiftDevice) (ts : List ℕ)
    (hbound : dev.device_time_ns + ts.length * 2 ^ 32 ≤ 2 ^ 64) :
    List.Chain' (· ≤ ·) (rift_device_time_trace dev ts) := by
  induction ts generalizing dev with
  | nil => exact List.chain'_singleton _
  | cons t ts ih =>
      have hb1 : dev.device_time_ns + 2 ^ 32 ≤ 2 ^ 64 := by
        have : (t :: ts).length * 2 ^ 32 = ts.length * 2 ^ 32 + 2 ^ 32 := by
          rw [List.length_cons]; ring
        omega
      have hstep := imu_step_mono dev t hb1
      have hle := imu_step_le dev t
      have hb2 : (rift_tracked_device_imu_update dev t).device_time_ns
          + ts.length * 2 ^ 32 ≤ 2 ^ 64 := by
        have : (t :: ts).length * 2 ^ 32 = ts.length * 2 ^ 32 + 2 ^ 32 := by
          rw [List.length_cons]; ring
        omega
      have ihh := ih (rift_tracked_device_imu_update dev t) hb2
      obtain ⟨tl, htl⟩ :=
        rift_device_time_trace_head (rift_tracked_device_imu_update dev t) ts
      show List.Chain' (· ≤ ·) (dev.device_time_ns ::
        rift_device_time_trace (rift_tracked_device_imu_update dev t) ts)
      rw [htl] at ihh ⊢
      exact List.Chain'.cons hstep ihh

/-- C4 witness for imu_device_time_monotone: a boot-state device run
over four raw timestamps (including one that jumps by almost 100
minutes, exercising the wrap difference). -/
theorem imu_device_time_monotone_witness :
    c4runDev.device_time_ns + c4ts.length * 2 ^ 32 ≤ 2 ^ 64 ∧
    List.Chain' (· ≤ ·) (rift_device_time_trace c4runDev c4ts) :=
  ⟨by decide, imu_device_time_monotone c4runDev c4ts (by decide)⟩

/-- C4 counterexample: the claim says a non-initialising update adds
the 32-bit wrap-around difference between the new and previous raw
timestamp converted to nanoseconds.  The source computes that product
in 32-bit arithmetic (unsigned int times int), so it is truncated
mod 2^32.  At a device whose extended time is 1000 ns with previous
raw timestamp 0, an update at raw timestamp 5000000 (a 5 s gap) adds
5000000000 mod 2^32 = 705032704 rather than 5000000000: the code
yields 705033704 while the claimed step yields 5000001000. -/
theorem imu_time_truncated_product_counterexample :
    (rift_tracked_device_imu_update c4dev 5000000).device_time_ns = 705033704 ∧
    (imu_update_per_claim c4dev 5000000).device_time_ns = 5000001000 ∧
    (rift_tracked_device_imu_update c4dev 5000000).device_time_ns
      ≠ (imu_update_per_claim c4dev 5000000).device_time_ns := by
  refine ⟨by decide, by decide, by decide⟩

theorem get_matching_some_iff (dev : RiftDevice)
    (info : rift_tracked_device_exposure_info) (i : Fin 3)
    (hrange : info.fusion_slot = -1 ∨
      (0 ≤ info.fusion_slot ∧ info.fusion_slot < 3)) :
    get_matching_delay_slot dev info = some i ↔
      (info.fusion_slot = (i.val : ℤ) ∧ (dev.delay_slots i).valid = true ∧
       (dev.delay_slots i).device_time_ns = info.device_time_ns) := by
  unfold get_matching_delay_slot
  rcases hrange with h1 | ⟨h0, h3⟩
  · rw [dif_neg (by simp [h1])]
    constructor
    · intro h; exact absurd h (by simp)
    · rintro ⟨hm, -, -⟩
      rw [h1] at hm
      exfalso
      omega
  · have hne : info.fusion_slot ≠ -1 := by omega
    have htn : info.fusion_slot.toNat < 3 := by omega
    rw [dif_pos ⟨hne, htn⟩]
    simp only []
    have hi : ((⟨info.fusion_slot.toNat, htn⟩ : Fin 3).val : ℤ)
        = info.fusion_slot := by
      simp [Int.toNat_of_nonneg h0]
    by_cases hc : (dev.delay_slots ⟨info.fusion_slot.toNat, htn⟩).valid = true ∧
        (dev.delay_slots ⟨info.fusion_slot.toNat, htn⟩).device_time_ns
          = info.device_time_ns
    · rw [if_pos hc]
      constructor
      · intro h
        have he := Option.some.inj h
        rw [← he]
        exact ⟨hi.symm, hc.1, hc.2⟩
      · rintro ⟨hm, -, -⟩
        have he : (⟨info.fusion_slot.toNat, htn⟩ : Fin 3) = i := by
          apply Fin.ext
          have : ((⟨info.fusion_slot.toNat, htn⟩ : Fin 3).val : ℤ)
              = (i.val : ℤ) := by rw [hi, hm]
          exact_mod_cast this
        rw [he]
    · rw [if_neg hc]
      constructor
      · intro h; exact absurd h (by simp)
      · rintro ⟨hm, hv, ht⟩
        exfalso
        apply hc
        have he : (⟨info.fusion_slot.toNat, htn⟩ : Fin 3) = i := by
          apply Fin.ext
          have : ((⟨info.fusion_slot.toNat, htn⟩ : Fin 3).val : ℤ)
              = (i.val : ℤ) := by rw [hi, hm]
          exact_mod_cast this
        rw [he]
        exact ⟨hv, ht⟩

theorem claim_on_matching (dev : RiftDevice)
    (info : rift_tracked_device_exposure_info) (i : Fin 3)
    (hm : get_matching_delay_slot dev info = some i) :
    rift_tracked_device_exposure_claim dev info =
      ({ dev with delay_slots :=
           (Function.update dev.delay_slots i
             { dev.delay_slots i with
                 use_count := (dev.delay_slots i).use_count + 1 }) },
       { info with fusion_slot := (dev.delay_slots i).slot_id }) := by
  unfold rift_tracked_device_exposure_claim
  rw [hm]

theorem claim_on_no_match (dev : RiftDevice)
    (info : rift_tracked_device_exposure_info)
    (hm : get_matching_delay_slot dev info = none) :
    rift_tracked_device_exposure_claim dev info =
      (dev, if info.fusion_slot = -1 then info
            else { info with fusion_slot := -1 }) := by
  unfold rift_tracked_device_exposure_claim
  rw [hm]

theorem release_on_matching (dev : RiftDevice)
    (info : rift_tracked_device_exposure_info) (i : Fin 3)
    (hm : get_matching_delay_slot dev info = some i) :
    rift_tracked_device_exposure_release_locked dev info =
      (let slot := dev.delay_slots i
       let slot1 := if 0 < slot.use_count
         then { slot with use_count := slot.use_count - 1 } else slot
       let discard : Bool := decide (slot1.use_count = 0)
       let slot2 := if discard then { slot1 with valid := false } else slot1
       ({ dev with delay_slots := (Function.update dev.delay_slots i slot2) },
        { info with fusion_slot := -1 },
        discard)) := by
  unfold rift_tracked_device_exposure_release_locked
  rw [hm]

theorem release_on_neg_one (dev : RiftDevice)
    (info : rift_tracked_device_exposure_info) (h : info.fusion_slot = -1) :
    rift_tracked_device_exposure_release_locked dev info = (dev, info, false) := by
  unfold rift_tracked_device_exposure_release_locked get_matching_delay_slot
  rw [dif_neg (by simp [h])]

/-- C2: the claim operation.  When the exposure record references a
slot (not -1) that is valid with matching device time, the use count
of exactly that slot is incremented by one and the record keeps its
reference (rewritten to the slot id stored in the ring); otherwise the
device is unchanged and the record fusion_slot ends up -1.  The range
hypothesis reflects the C assertion that a stored reference is -1 or a
slot index. -/
theorem exposure_claim_spec (dev : RiftDevice)
    (info : rift_tracked_device_exposure_info)
    (hrange : info.fusion_slot = -1 ∨
      (0 ≤ info.fusion_slot ∧ info.fusion_slot < 3)) :
    (∀ i : Fin 3, info.fusion_slot = (i.val : ℤ) →
      (dev.delay_slots i).valid = true →
      (dev.delay_slots i).device_time_ns = info.device_time_ns →
      ((rift_tracked_device_exposure_claim dev info).1.delay_slots i).use_count
          = (dev.delay_slots i).use_count + 1 ∧
      (∀ j : Fin 3, j ≠ i →
        (rift_tracked_device_exposure_claim dev info).1.delay_slots j
          = dev.delay_slots j) ∧
      (rift_tracked_device_exposure_claim dev info).2.fusion_slot
          = (dev.delay_slots i).slot_id ∧
      (rift_tracked_device_exposure_claim dev info).2.device_time_ns
          = info.device_time_ns) ∧
    ((¬ ∃ i : Fin 3, info.fusion_slot = (i.val : ℤ) ∧
        (dev.delay_slots i).valid = true ∧
        (dev.delay_slots i).device_time_ns = info.device_time_ns) →
      (rift_tracked_device_exposure_claim dev info).1 = dev ∧
      (rift_tracked_device_exposure_claim dev info).2.fusion_slot = -1 ∧
      (rift_tracked_device_exposure_claim dev info).2.device_time_ns
          = info.device_time_ns) := by
  constructor
  · intro i hm hv ht
    have hsome : get_matching_delay_slot dev info = some i :=
      (get_matching_some_iff dev info i hrange).2 ⟨hm, hv, ht⟩
    rw [claim_on_matching dev info i hsome]
    refine ⟨?_, ?_, rfl, rfl⟩
    · simp [Function.update_same]
    · intro j hj
      simp [Function.update_noteq hj]
  · intro hne
    have hnone : get_matching_delay_slot dev info = none := by
      rcases hcase : get_matching_delay_slot dev info with - | i
      · rfl
      · exact absurd ⟨i, (get_matching_some_iff dev info i hrange).1 hcase⟩ hne
    rw [claim_on_no_match dev info hnone]
    refine ⟨rfl, ?_, ?_⟩
    · by_cases hf : info.fusion_slot = -1
      · simp [hf]
      · simp [hf]
    · by_cases hf : info.fusion_slot = -1
      · simp [hf]
      · simp [hf]

/-- C2 witness: a device whose slot 1 is valid at device time 42 and an
exposure record referencing slot 1 at time 42; the claim bumps the use
count from 5 to 6. -/
theorem exposure_claim_spec_witness :
    (c2info.fusion_slot = -1 ∨ (0 ≤ c2info.fusion_slot ∧ c2info.fusion_slot < 3)) ∧
    ((rift_tracked_device_exposure_claim c2dev c2info).1.delay_slots 1).use_count
      = (c2dev.delay_slots 1).use_count + 1 :=
  ⟨by decide,
   ((exposure_claim_spec c2dev c2info (by decide)).1 1
     (by decide) (by decide) (by decide)).1⟩

/-- C9: release is idempotent and never drives a use count negative.
When a release matches a delay slot it clears the record fusion_slot to
-1, so an immediately repeated release with the returned record changes
nothing and reports no filter discard; a matched slot whose use count
is already 0 is not decremented; and non-negativity of every use count
is preserved. -/
theorem exposure_release_idempotent (dev : RiftDevice)
    (info : rift_tracked_device_exposure_info) (i : Fin 3)
    (hm : get_matching_delay_slot dev info = some i) :
    (rift_tracked_device_exposure_release_locked dev info).2.1.fusion_slot = -1 ∧
    rift_tracked_device_exposure_release_locked
        (rift_tracked_device_exposure_release_locked dev info).1
        (rift_tracked_device_exposure_release_locked dev info).2.1
      = ((rift_tracked_device_exposure_release_locked dev info).1,
         (rift_tracked_device_exposure_release_locked dev info).2.1, false) ∧
    ((dev.delay_slots i).use_count = 0 →
      ((rift_tracked_device_exposure_release_locked dev info).1.delay_slots i).use_count = 0) ∧
    (∀ j : Fin 3, 0 ≤ (dev.delay_slots j).use_count →
      0 ≤ ((rift_tracked_device_exposure_release_locked dev info).1.delay_slots j).use_count) := by
  rw [release_on_matching dev info i hm]
  refine ⟨rfl, release_on_neg_one _ _ rfl, ?_, ?_⟩
  · intro h0
    simp only [Function.update_same]
    rw [if_neg (show ¬ (0 : ℤ) < (dev.delay_slots i).use_count by omega)]
    simp [h0]
  · intro j hj
    by_cases hji : j = i
    · subst hji
      simp only [Function.update_same]
      split_ifs <;> first
        | (simp_all; omega)
        | simp_all
    · simp only [Function.update_noteq hji]
      exact hj

/-- C9 witness: a device whose slot 2 is valid at device time 3 with
use count 1, and a record referencing it. -/
theorem exposure_release_idempotent_witness :
    get_matching_delay_slot c9dev c9info = some 2 ∧
    (rift_tracked_device_exposure_release_locked c9dev c9info).2.1.fusion_slot = -1 ∧
    rift_tracked_device_exposure_release_locked
        (rift_tracked_device_exposure_release_locked c9dev c9info).1
        (rift_tracked_device_exposure_release_locked c9dev c9info).2.1
      = ((rift_tracked_device_exposure_release_locked c9dev c9info).1,
         (rift_tracked_device_exposure_release_locked c9dev c9info).2.1, false) :=
  ⟨by decide,
   (exposure_release_idempotent c9dev c9info 2 (by decide)).1,
   (exposure_release_idempotent c9dev c9info 2 (by decide)).2.1⟩

theorem find_free_aux_sound : ∀ (n idx : ℕ)
    (slots : Fin 3 → rift_tracker_pose_delay_slot) (i : Fin 3)
    (s : rift_tracker_pose_delay_slot),
    (find_free_aux slots idx n).2 = some (i, s) →
    s = slots i ∧ s.use_count = 0 := by
  intro n
  induction n with
  | zero =>
      intro idx slots i s h
      exact absurd h (by simp [find_free_aux])
  | succ n ih =>
      intro idx slots i s h
      unfold find_free_aux at h
      simp only [] at h
      split at h
      · rename_i hidx
        split at h
        · rename_i hz
          simp only [Option.some.injEq, Prod.mk.injEq] at h
          obtain ⟨h1, h2⟩ := h
          subst h1
          subst h2
          exact ⟨rfl, hz⟩
        · exact ih _ _ _ _ h
      · exact ih _ _ _ _ h

theorem update_exposure_on_alloc (dev : RiftDevice) (i : Fin 3)
    (s : rift_tracker_pose_delay_slot)
    (h : (find_free_delay_slot dev).2 = some (i, s)) :
    rift_tracked_device_update_exposure dev =
      ({ (find_free_delay_slot dev).1 with delay_slots :=
           (Function.update (find_free_delay_slot dev).1.delay_slots i
             { s with device_time_ns := dev.device_time_ns, valid := true }) },
       { fusion_slot := s.slot_id, device_time_ns := dev.device_time_ns }) := by
  unfold rift_tracked_device_update_exposure
  simp only []
  rw [h]

/-- The claim-claim-release-release chain on a device whose slot i has
just been set up for an exposure at device time T (valid, use count 0)
and on an exposure record referencing that slot at that time: the two
claims raise the use count to 2, the first release lowers it to 1
without a filter discard, and the second release lowers it to 0,
invalidates the slot and tells the filter to discard the snapshot. -/
theorem claim_claim_release_release (dev : RiftDevice)
    (info : rift_tracked_device_exposure_info) (i : Fin 3) (T : ℕ)
    (hslots : dev.delay_slots i = ⟨(i.val : ℤ), true, 0, T⟩)
    (hfus : info.fusion_slot = (i.val : ℤ))
    (htime : info.device_time_ns = T) :
    (let s2 := rift_tracked_device_exposure_claim dev info
     let s3 := rift_tracked_device_exposure_claim s2.1 info
     let s4 := rift_tracked_device_exposure_release_locked s3.1 s2.2
     let s5 := rift_tracked_device_exposure_release_locked s4.1 s3.2
     (s5.1.delay_slots i).use_count = 0 ∧ (s5.1.delay_slots i).valid = false ∧
       s4.2.2 = false ∧ s5.2.2 = true) := by
  have hrange : info.fusion_slot = -1 ∨
      (0 ≤ info.fusion_slot ∧ info.fusion_slot < 3) := by
    right
    have := i.isLt
    omega
  have hinfo : { info with fusion_slot := (i.val : ℤ) } = info := by
    obtain ⟨f, t⟩ := info
    simp only [] at hfus
    rw [hfus]
  have hm1 : get_matching_delay_slot dev info = some i := by
    refine (get_matching_some_iff dev info i hrange).2 ⟨hfus, ?_, ?_⟩
    · rw [hslots]
    · rw [hslots, htime]
  have h2 : rift_tracked_device_exposure_claim dev info =
      ({ dev with delay_slots := (Function.update dev.delay_slots i
           ⟨(i.val : ℤ), true, 1, T⟩) }, info) := by
    rw [claim_on_matching dev info i hm1, hslots]
    simp only []
    rw [hinfo]
    norm_num
  have hm2 : get_matching_delay_slot
      { dev with delay_slots := (Function.update dev.delay_slots i
          ⟨(i.val : ℤ), true, 1, T⟩) } info = some i := by
    refine (get_matching_some_iff _ info i hrange).2 ⟨hfus, ?_, ?_⟩
    · simp [Function.update_same]
    · simp [Function.update_same, htime]
  have h3 : rift_tracked_device_exposure_claim
      { dev with delay_slots := (Function.update dev.delay_slots i
          ⟨(i.val : ℤ), true, 1, T⟩) } info =
      ({ dev with delay_slots := (Function.update dev.delay_slots i
           ⟨(i.val : ℤ), true, 2, T⟩) }, info) := by
    rw [claim_on_matching _ info i hm2]
    simp only [Function.update_same, Function.update_idem, Prod.mk.injEq]
    refine ⟨by norm_num, hinfo⟩
  have hm3 : get_matching_delay_slot
      { dev with delay_slots := (Function.update dev.delay_slots i
          ⟨(i.val : ℤ), true, 2, T⟩) } info = some i := by
    refine (get_matching_some_iff _ info i hrange).2 ⟨hfus, ?_, ?_⟩
    · simp [Function.update_same]
    · simp [Function.update_same, htime]
  have h4 : rift_tracked_device_exposure_release_locked
      { dev with delay_slots := (Function.update dev.delay_slots i
          ⟨(i.val : ℤ), true, 2, T⟩) } info =
      ({ dev with delay_slots := (Function.update dev.delay_slots i
           ⟨(i.val : ℤ), true, 1, T⟩) }, { info with fusion_slot := -1 },
       false) := by
    rw [release_on_matching _ info i hm3]
    simp [Function.update_same, Function.update_idem]
  have h5 : rift_tracked_device_exposure_release_locked
      { dev with delay_slots := (Function.update dev.delay_slots i
          ⟨(i.val : ℤ), true, 1, T⟩) } info =
      ({ dev with delay_slots := (Function.update dev.delay_slots i
           ⟨(i.val : ℤ), false, 0, T⟩) }, { info with fusion_slot := -1 },
       true) := by
    rw [release_on_matching _ info i hm2]
    simp [Function.update_same, Function.update_idem]
  simp only []
  rw [h2]
  simp only []
  rw [h3]
  simp only []
  rw [h4]
  simp only []
  rw [h5]
  simp [Function.update_same]

/-- C3: starting from a device state where update_exposure has just
allocated a delay slot for an exposure record (fusion_slot is not -1),
claiming that record twice and then releasing the two resulting records
returns the slot to use count 0 and valid false; the first release does
not discard the filter snapshot and the second one does. -/
theorem delay_slot_lifecycle (dev0 : RiftDevice) (hwf : slotsWF dev0)
    (hslot : (rift_tracked_device_update_exposure dev0).2.fusion_slot ≠ -1) :
    ∃ i : Fin 3,
      (rift_tracked_device_update_exposure dev0).2.fusion_slot = (i.val : ℤ) ∧
      (let dev1 := (rift_tracked_device_update_exposure dev0).1
       let info := (rift_tracked_device_update_exposure dev0).2
       let s2 := rift_tracked_device_exposure_claim dev1 info
       let s3 := rift_tracked_device_exposure_claim s2.1 info
       let s4 := rift_tracked_device_exposure_release_locked s3.1 s2.2
       let s5 := rift_tracked_device_exposure_release_locked s4.1 s3.2
       (s5.1.delay_slots i).use_count = 0 ∧ (s5.1.delay_slots i).valid = false ∧
         s4.2.2 = false ∧ s5.2.2 = true) := by
  rcases hr : (find_free_delay_slot dev0).2 with - | is
  · exfalso
    apply hslot
    unfold rift_tracked_device_update_exposure
    simp only []
    rw [hr]
  · obtain ⟨i, slot⟩ := is
    obtain ⟨hs, hz⟩ :=
      find_free_aux_sound 3 dev0.delay_slot_index dev0.delay_slots i slot hr
    have hsid : slot.slot_id = (i.val : ℤ) := by rw [hs]; exact hwf i
    have hup := update_exposure_on_alloc dev0 i slot hr
    refine ⟨i, ?_, ?_⟩
    · rw [hup]
      exact hsid
    · rw [hup]
      refine claim_claim_release_release _ _ i dev0.device_time_ns ?_ ?_ ?_
      · dsimp only []
        rw [Function.update_same, hsid, hz]
      · exact hsid
      · rfl

/-- C3 witness: a freshly registered device (all three slots free) at
device time 7777; the allocation picks slot 0. -/
theorem delay_slot_lifecycle_witness :
    slotsWF c3dev ∧
    (rift_tracked_device_update_exposure c3dev).2.fusion_slot ≠ -1 ∧
    ∃ i : Fin 3,
      (rift_tracked_device_update_exposure c3dev).2.fusion_slot = (i.val : ℤ) ∧
      (let dev1 := (rift_tracked_device_update_exposure c3dev).1
       let info := (rift_tracked_device_update_exposure c3dev).2
       let s2 := rift_tracked_device_exposure_claim dev1 info
       let s3 := rift_tracked_device_exposure_claim s2.1 info
       let s4 := rift_tracked_device_exposure_release_locked s3.1 s2.2
       let s5 := rift_tracked_device_exposure_release_locked s4.1 s3.2
       (s5.1.delay_slots i).use_count = 0 ∧ (s5.1.delay_slots i).valid = false ∧
         s4.2.2 = false ∧ s5.2.2 = true) :=
  ⟨by decide, by decide, delay_slot_lifecycle c3dev (by decide) (by decide)⟩

theorem exp_lerp_self (a alpha : ℚ) : exp_lerp a a alpha = a := by
  unfold exp_lerp
  ring

theorem exp_lerp_one (a b : ℚ) : exp_lerp a b 1 = b := by
  unfold exp_lerp
  ring

theorem exp_lerp_vec_id (v : vec3f) (alpha : ℚ) : exp_lerp_vec v v alpha = v := by
  unfold exp_lerp_vec
  simp [exp_lerp_self]

theorem exp_lerp_quat_one (a b : quatf) : exp_lerp_quat a b 1 = b := by
  unfold exp_lerp_quat
  simp [exp_lerp_one]

/-- C5: tracking-lost freeze.  When the device time has advanced past
the last view-pose read and the last observed pose is at least 500 ms
old, the view-pose query returns the previously reported position
unchanged (for every smoothing coefficient), zero velocity and zero
acceleration, and its orientation is driven by the Kalman filter query
at the current device time: with no smoothing (coefficient 1), or with
a fresh output filter, it is exactly that orientation.  The filter
invariant hypothesis says the smoother state, being the previous
output, carries the previously reported position. -/
theorem view_pose_tracking_lost_freeze (kal : ℕ → posef × vec3f × vec3f)
    (alpha : ℚ) (dev : RiftDevice)
    (hadv : dev.last_reported_pose < dev.device_time_ns)
    (hwf : dev.device_time_ns < 2 ^ 64)
    (hobs : dev.last_observed_pose_ts ≤ dev.device_time_ns)
    (hlost : 500000000 ≤ dev.device_time_ns - dev.last_observed_pose_ts)
    (hfil : ∀ s, dev.pose_output_filter = some s →
      s.pos = dev.reported_pose.pos) :
    (rift_tracked_device_get_view_pose kal alpha dev).2.1.pos
        = dev.reported_pose.pos ∧
    (rift_tracked_device_get_view_pose kal alpha dev).1.reported_pose.pos
        = dev.reported_pose.pos ∧
    (rift_tracked_device_get_view_pose kal alpha dev).2.2.1 = vec3f_zero ∧
    (rift_tracked_device_get_view_pose kal alpha dev).2.2.2 = vec3f_zero ∧
    (alpha = 1 →
      (rift_tracked_device_get_view_pose kal alpha dev).2.1.orient
        = (kal dev.device_time_ns).1.orient) ∧
    (dev.pose_output_filter = none →
      (rift_tracked_device_get_view_pose kal alpha dev).2.1.orient
        = (kal dev.device_time_ns).1.orient) := by
  have hlost2 : 500000000 ≤
      (dev.device_time_ns + 2 ^ 64 - dev.last_observed_pose_ts) % 2 ^ 64 := by
    have : (dev.device_time_ns + 2 ^ 64 - dev.last_observed_pose_ts) % 2 ^ 64
        = dev.device_time_ns - dev.last_observed_pose_ts := by
      omega
    omega
  rcases hf : dev.pose_output_filter with - | s
  · have hres : rift_tracked_device_get_view_pose kal alpha dev =
        ({ dev with
             reported_pose := ⟨(kal dev.device_time_ns).1.orient,
               dev.reported_pose.pos⟩,
             pose_output_filter := some ⟨(kal dev.device_time_ns).1.orient,
               dev.reported_pose.pos⟩,
             last_reported_pose := dev.device_time_ns },
         ⟨(kal dev.device_time_ns).1.orient, dev.reported_pose.pos⟩,
         vec3f_zero, vec3f_zero) := by
      unfold rift_tracked_device_get_view_pose exp_filter_pose_run
      rw [if_pos hadv, hf]
      simp only [if_pos hlost2]
    rw [hres]
    exact ⟨rfl, rfl, rfl, rfl, fun _ => rfl, fun _ => rfl⟩
  · have hpos := hfil s hf
    have hres : rift_tracked_device_get_view_pose kal alpha dev =
        ({ dev with
             reported_pose :=
               ⟨exp_lerp_quat s.orient (kal dev.device_time_ns).1.orient alpha,
                exp_lerp_vec s.pos dev.reported_pose.pos alpha⟩,
             pose_output_filter := some
               ⟨exp_lerp_quat s.orient (kal dev.device_time_ns).1.orient alpha,
                exp_lerp_vec s.pos dev.reported_pose.pos alpha⟩,
             last_reported_pose := dev.device_time_ns },
         ⟨exp_lerp_quat s.orient (kal dev.device_time_ns).1.orient alpha,
          exp_lerp_vec s.pos dev.reported_pose.pos alpha⟩,
         vec3f_zero, vec3f_zero) := by
      unfold rift_tracked_device_get_view_pose exp_filter_pose_run
      rw [if_pos hadv, hf]
      simp only [if_pos hlost2]
    rw [hres]
    refine ⟨?_, ?_, rfl, rfl, ?_, ?_⟩
    · show exp_lerp_vec s.pos dev.reported_pose.pos alpha = dev.reported_pose.pos
      rw [hpos]
      exact exp_lerp_vec_id _ _
    · show exp_lerp_vec s.pos dev.reported_pose.pos alpha = dev.reported_pose.pos
      rw [hpos]
      exact exp_lerp_vec_id _ _
    · intro h1
      subst h1
      exact exp_lerp_quat_one _ _
    · intro hnone
      exact absurd hnone (by simp)

/-- C5 witness: a device 600 ms past its last observed pose, fresh
output filter, smoothing coefficient 1. -/
theorem view_pose_tracking_lost_freeze_witness :
    (c5dev.last_reported_pose < c5dev.device_time_ns ∧
     c5dev.device_time_ns < 2 ^ 64 ∧
     c5dev.last_observed_pose_ts ≤ c5dev.device_time_ns ∧
     500000000 ≤ c5dev.device_time_ns - c5dev.last_observed_pose_ts) ∧
    (rift_tracked_device_get_view_pose c5kal 1 c5dev).2.1.pos
        = c5dev.reported_pose.pos ∧
    (rift_tracked_device_get_view_pose c5kal 1 c5dev).2.2.1 = vec3f_zero ∧
    (rift_tracked_device_get_view_pose c5kal 1 c5dev).2.2.2 = vec3f_zero ∧
    (rift_tracked_device_get_view_pose c5kal 1 c5dev).2.1.orient
        = (c5kal c5dev.device_time_ns).1.orient :=
  have h := view_pose_tracking_lost_freeze c5kal 1 c5dev (by decide)
    (by decide) (by decide) (by decide) (by intro s hs; cases hs)
  ⟨⟨by decide, by decide, by decide, by decide⟩,
   h.1, h.2.2.1, h.2.2.2.1, h.2.2.2.2.1 rfl⟩

/-- C10: when the device time has not advanced past the last view-pose
read, the view-pose query neither consults the Kalman filter nor the
smoother (the result does not depend on them), leaves the device state
unchanged, returns the cached reported pose, and returns exactly zero
velocity and acceleration. -/
theorem view_pose_no_advance_cached (kal : ℕ → posef × vec3f × vec3f)
    (alpha : ℚ) (dev : RiftDevice)
    (h : dev.device_time_ns ≤ dev.last_reported_pose) :
    rift_tracked_device_get_view_pose kal alpha dev
      = (dev, dev.reported_pose, vec3f_zero, vec3f_zero) := by
  unfold rift_tracked_device_get_view_pose
  rw [if_neg (by omega)]

/-- C10 witness: a device already reported at its current device time;
the query returns the cached pose and zeros and changes nothing. -/
theorem view_pose_no_advance_cached_witness :
    c10dev.device_time_ns ≤ c10dev.last_reported_pose ∧
    rift_tracked_device_get_view_pose c10kal 0 c10dev
      = (c10dev, c10dev.reported_pose, vec3f_zero, vec3f_zero) :=
  ⟨by decide, view_pose_no_advance_cached c10kal 0 c10dev (by decide)⟩

/-- C6: camera pose bootstrap.  For a sensor without a camera pose and
an accepted device pose (good_pose_match true after re-evaluation), the
camera pose is installed exactly when the device is the HMD (id 0), the
squared norm of the capture-time orientation exceeds 0.81 (the source
compares the norm with 0.9), and the gravity uncertainty is below the
15-degree threshold rad15; on installation the camera pose is the
capture-time world pose composed with the inverse of the observed
camera-relative pose, and have_camera_pose becomes true; otherwise the
sensor state is unchanged. -/
theorem camera_pose_bootstrap_spec (rad15 : ℚ)
    (sensor : rift_sensor_pose_state) (dev_id : ℕ)
    (capture_world_pose : posef) (gravity_error_rad : ℚ)
    (final_cam_pose : posef)
    (hno : sensor.have_camera_pose = false) :
    ((update_device_pose rad15 sensor dev_id true capture_world_pose
        gravity_error_rad final_cam_pose).1.have_camera_pose = true ↔
      (dev_id = 0 ∧ 81 / 100 < oquatf_get_length_sq capture_world_pose.orient
        ∧ gravity_error_rad < rad15)) ∧
    ((dev_id = 0 ∧ 81 / 100 < oquatf_get_length_sq capture_world_pose.orient
        ∧ gravity_error_rad < rad15) →
      (update_device_pose rad15 sensor dev_id true capture_world_pose
          gravity_error_rad final_cam_pose).1.camera_pose
        = oposef_apply (oposef_inverse final_cam_pose) capture_world_pose) ∧
    (¬ (dev_id = 0 ∧ 81 / 100 < oquatf_get_length_sq capture_world_pose.orient
        ∧ gravity_error_rad < rad15) →
      (update_device_pose rad15 sensor dev_id true capture_world_pose
          gravity_error_rad final_cam_pose).1 = sensor) := by
  unfold update_device_pose
  rw [if_pos rfl, if_neg (by rw [hno]; exact Bool.false_ne_true)]
  by_cases hc : dev_id = 0 ∧ 81 / 100 < oquatf_get_length_sq capture_world_pose.orient
      ∧ gravity_error_rad < rad15
  · rw [if_pos hc]
    exact ⟨by simp [hc], fun _ => rfl, fun hn => absurd hc hn⟩
  · rw [if_neg hc]
    exact ⟨by simp [hno, hc], fun h => absurd h hc, fun _ => rfl⟩

/-- C6 witness: the HMD (id 0) with a unit capture orientation and a
gravity uncertainty of 0.1 rad against a threshold of 0.26 rad;
the camera pose is installed. -/
theorem camera_pose_bootstrap_spec_witness :
    c6sensor.have_camera_pose = false ∧
    (0 = 0 ∧ (81 : ℚ) / 100 < oquatf_get_length_sq c6capture.orient
      ∧ (1 : ℚ) / 10 < 26 / 100) ∧
    (update_device_pose (26 / 100) c6sensor 0 true c6capture (1 / 10)
        c6found).1.have_camera_pose = true ∧
    (update_device_pose (26 / 100) c6sensor 0 true c6capture (1 / 10)
        c6found).1.camera_pose
      = oposef_apply (oposef_inverse c6found) c6capture :=
  have h := camera_pose_bootstrap_spec (26 / 100) c6sensor 0 c6capture
    (1 / 10) c6found rfl
  have hc : (0 = 0 ∧ (81 : ℚ) / 100 < oquatf_get_length_sq c6capture.orient
      ∧ (1 : ℚ) / 10 < 26 / 100) := ⟨rfl, by norm_num [oquatf_get_length_sq, c6capture], by norm_num⟩
  ⟨rfl, hc, h.1.2 hc, h.2.1 hc⟩

theorem releaseOldRecords_nil (devs : List RiftDevice) :
    releaseOldRecords devs [] = devs := by
  cases devs <;> rfl

theorem claimNewRecords_nil (devs : List RiftDevice) :
    claimNewRecords devs [] = (devs, []) := by
  cases devs <;> rfl

/-- The per-device interleaving of release-old-then-claim-new performed
by rift_tracker_frame_changed_exposure equals releasing all old records
first and then claiming all new ones (each device only touches its own
slot ring). -/
theorem frame_changed_eq_release_then_claim :
    ∀ (devs : List RiftDevice)
      (olds news : List rift_tracked_device_exposure_info),
    rift_tracker_frame_changed_exposure devs (some olds) news =
      claimNewRecords (releaseOldRecords devs olds) news := by
  intro devs
  induction devs with
  | nil =>
      intro olds news
      cases olds <;> cases news <;>
        simp [rift_tracker_frame_changed_exposure, releaseOldRecords,
          claimNewRecords]
  | cons dev devs ih =>
      intro olds news
      cases olds with
      | nil =>
          cases news with
          | nil =>
              simp only [rift_tracker_frame_changed_exposure,
                releaseOldRecords, claimNewRecords]
              rw [ih [] [], releaseOldRecords_nil, claimNewRecords_nil]
          | cons n ns =>
              simp only [rift_tracker_frame_changed_exposure,
                releaseOldRecords, claimNewRecords]
              rw [ih [] ns, releaseOldRecords_nil]
      | cons o os =>
          cases news with
          | nil =>
              simp only [rift_tracker_frame_changed_exposure,
                releaseOldRecords, claimNewRecords]
              rw [ih os [], claimNewRecords_nil]
          | cons n ns =>
              simp only [rift_tracker_frame_changed_exposure,
                releaseOldRecords, claimNewRecords]
              rw [ih os ns]

/-- C8: mid-frame exposure patch.  For a sensor holding a current
capture frame with valid exposure info and a newly announced exposure
with a different counter: the frame exposure info is replaced exactly
when the new exposure local timestamp falls within 5 ms of the frame
start, and on replacement the tracker devices are updated by releasing
every old per-device record and then claiming every new one (the new
records being written back into the frame); otherwise nothing
changes. -/
theorem sensor_update_exposure_spec (st : rift_sensor_exposure_state)
    (frame : rift_sensor_capture_frame)
    (new_info : rift_tracker_exposure_info)
    (hf : st.cur_capture_frame = some frame)
    (hv : frame.exposure_info_valid = true)
    (hc : frame.exposure_info.count ≠ new_info.count) :
    (new_info.local_ts < frame.start_ts + 5000000 →
      rift_sensor_update_exposure st new_info =
        { cur_capture_frame := some { frame with
            exposure_info := { new_info with devices :=
              (claimNewRecords
                (releaseOldRecords st.devices frame.exposure_info.devices)
                new_info.devices).2 } }
          devices :=
            (claimNewRecords
              (releaseOldRecords st.devices frame.exposure_info.devices)
              new_info.devices).1 }) ∧
    (¬ new_info.local_ts < frame.start_ts + 5000000 →
      rift_sensor_update_exposure st new_info = st) := by
  unfold rift_sensor_update_exposure
  rw [hf]
  simp only []
  rw [if_neg (by simp [hv]), if_pos hc]
  constructor
  · intro h
    rw [if_pos h, frame_changed_eq_release_then_claim]
  · intro h
    rw [if_neg h]

/-- C8 witness: one tracked device, a frame with exposure counter 7
whose record holds slot 0 (use count 1), and a new exposure counter 8
arriving 2 ms after the frame start whose record holds slot 1; the
patch replaces the exposure, releases slot 0 and claims slot 1. -/
theorem sensor_update_exposure_spec_witness :
    (c8frame.exposure_info.count ≠ c8new.count ∧
     c8new.local_ts < c8frame.start_ts + 5000000) ∧
    rift_sensor_update_exposure c8st c8new =
      { cur_capture_frame := some { c8frame with
          exposure_info := { c8new with devices :=
            (claimNewRecords
              (releaseOldRecords c8st.devices c8frame.exposure_info.devices)
              c8new.devices).2 } }
        devices :=
          (claimNewRecords
            (releaseOldRecords c8st.devices c8frame.exposure_info.devices)
            c8new.devices).1 } :=
  ⟨⟨by decide, by decide⟩,
   (sensor_update_exposure_spec c8st c8frame c8new rfl rfl (by decide)).1
     (by decide)⟩

end OpenHMDRift
